import Mathlib

/-!
Verification of the iDigi Python push-monitor client
(`idigi_monitor_api/push_client.py`) against its specification.

The Python source is shallowly embedded: byte strings are `List Nat`
(each entry a byte value), `struct` packing/unpacking is spelled out in
base-256 arithmetic, sockets are replaced by an explicit byte stream plus
an adversarial schedule of `recv` chunk sizes, and the long-running
reader / worker loops are modelled as step functions that emit the
observable events (dispatches, warnings, enqueued acknowledgements,
socket-mode changes).
-/

deriving instance DecidableEq for Except

/-! ## Byte-level codec (`struct` calls in the source) -/

/-- `struct.pack('!H', n)` — big-endian unsigned 16-bit integer. -/
def pack_u16 (n : Nat) : List Nat :=
  [n / 256 % 256, n % 256]

/-- `struct.pack('!L', n)` / `struct.pack('!I', n)` — big-endian unsigned
32-bit integer. -/
def pack_u32 (n : Nat) : List Nat :=
  [n / 16777216 % 256, n / 65536 % 256, n / 256 % 256, n % 256]

/-- `struct.unpack('!H', b)[0]` on the first two bytes of `b`. -/
def unpack_u16 (b : List Nat) : Nat :=
  256 * b.getD 0 0 + b.getD 1 0

/-- The unsigned big-endian value of the first four bytes of `b`. -/
def unpack_u32 (b : List Nat) : Nat :=
  16777216 * b.getD 0 0 + 65536 * b.getD 1 0 + 256 * b.getD 2 0 + b.getD 3 0

/-- `struct.unpack('!i', b)[0]` on the first four bytes of `b`:
big-endian SIGNED 32-bit (two's complement), exactly as the source uses
for the frame body length in `_read_msg_header`. -/
def unpack_i32 (b : List Nat) : Int :=
  let u := unpack_u32 b
  if u < 2147483648 then (u : Int) else (u : Int) - 4294967296

/-! ## Protocol constants (`push_client.py` lines 46-63) -/

def CONNECTION_REQUEST : Nat := 0x01
def CONNECTION_RESPONSE : Nat := 0x02
def PUBLISH_MESSAGE : Nat := 0x03
def PUBLISH_MESSAGE_RECEIVED : Nat := 0x04

/-- Data has not been completely read. -/
def INCOMPLETE : Int := -1
/-- No data received on socket. -/
def NO_DATA : Int := -2

def STATUS_OK : Nat := 200

/-! ## Session state (`PushSession.__init__`)

`sock` is the socket handle (`None` when closed), `data` is the
accumulation buffer (`None` after `stop()`, a byte string otherwise) and
`message_length` is the signed body length decoded from the header. -/

structure Session where
  sock : Option Nat
  data : Option (List Nat)
  message_length : Int
  deriving DecidableEq, Repr

/-! ## Socket input model

`stream` is the sequence of bytes the server has written and the client
has not yet consumed; `sched` is an adversarial schedule of TCP segment
sizes: the i-th `recv` call returns at most `sched[i]` bytes (all of the
request when the schedule is exhausted).  A `recv` returning `[]` models
a closed peer (`len(data) == 0` in the source). -/

structure RecvState where
  stream : List Nat
  sched : List Nat
  deriving DecidableEq, Repr

/-- `session.socket.recv(n)`: returns up to `n` bytes of the pending
stream, cut short by the head of the schedule. -/
def recv (n : Nat) (rs : RecvState) : List Nat × RecvState :=
  let k := min n (rs.sched.headD n)
  (rs.stream.take k, ⟨rs.stream.drop k, rs.sched.tail⟩)

/-- Python exceptions that the reader distinguishes. -/
inductive PyError where
  | pushException
  | typeError
  | valueError
  deriving DecidableEq, Repr

/-! ## `_read_msg_header` (lines 83-113)

Reads up to 6 bytes of header.  On a complete header it stores the
SIGNED 32-bit body length in `message_length`, clears the buffer, and
returns the 16-bit type; `NO_DATA` / `INCOMPLETE` are returned as the
negative sentinels of the source.  `len(None)` raises `TypeError`. -/

def readMsgHeader (s : Session) (rs : RecvState) :
    Except PyError Int × Session × RecvState :=
  match s.data with
  | none => (Except.error PyError.typeError, s, rs)
  | some buf =>
    let (chunk, rs') := recv (6 - buf.length) rs
    if chunk.length = 0 then (Except.ok NO_DATA, s, rs')
    else
      let buf' := buf ++ chunk
      if buf'.length < 6 then
        (Except.ok INCOMPLETE, { s with data := some buf' }, rs')
      else
        (Except.ok (unpack_u16 (buf'.take 2) : Int),
          { s with data := some [], message_length := unpack_i32 (buf'.drop 2) },
          rs')

/-! ## `_read_msg` (lines 115-138)

Accumulates body bytes until `len(session.data) == session.message_length`.
A zero-length read raises `PushException`; `recv` of a negative count
(possible when `message_length` decoded negative) raises `ValueError`. -/

def readMsg (s : Session) (rs : RecvState) :
    Except PyError Bool × Session × RecvState :=
  match s.data with
  | none => (Except.error PyError.typeError, s, rs)
  | some buf =>
    if (buf.length : Int) = s.message_length then (Except.ok true, s, rs)
    else if s.message_length - (buf.length : Int) < 0 then
      (Except.error PyError.valueError, s, rs)
    else
      let (chunk, rs') := recv (s.message_length - (buf.length : Int)).toNat rs
      if chunk.length = 0 then (Except.error PyError.pushException, s, rs')
      else
        let buf' := buf ++ chunk
        (Except.ok ((buf'.length : Int) == s.message_length),
          { s with data := some buf' }, rs')

/-! ## The reader loop body (`PushClient.__select`, lines 603-690)

One iteration of the `for sock in inputready` body for a single ready
session.  Observable actions are emitted as events; `queue_callback`
(handing `(block_id, payload)` to the callback pool) is the
`dispatched` event.  `doRestart` abstracts `__restart_session` and
`inflate` abstracts `zlib.decompress`. -/

inductive SelEvent where
  | logSocketClosed
  | restarted
  | logWarn (rtype : Int)
  | logException
  | deletedSession
  | dispatched (block_id : Nat) (payload : List Nat)
  deriving DecidableEq, Repr

/-- Lines 645-679: body read, parse and dispatch.  Reached either when a
publish header has just been consumed or when `message_length ≠ 0` from a
previous incomplete read. -/
def selectBody (inflate : List Nat → List Nat) (doRestart : Session → Session)
    (s : Session) (rs : RecvState) : Session × RecvState × List SelEvent :=
  match readMsg s rs with
  | (Except.error PyError.pushException, s1, rs1) =>
    -- lines 649-661: clear receive state, then delete or restart.
    let s2 := { s1 with data := some [], message_length := 0 }
    if s2.sock = none then (s2, rs1, [SelEvent.deletedSession])
    else (doRestart s2, rs1, [SelEvent.logException, SelEvent.restarted])
  | (Except.error _, s1, rs1) =>
    -- any other exception is logged by the outer handler (line 685).
    (s1, rs1, [SelEvent.logException])
  | (Except.ok false, s1, rs1) => (s1, rs1, [])  -- data not complete yet
  | (Except.ok true, s1, rs1) =>
    -- lines 663-679: full payload; clear state, parse, maybe inflate.
    let data := s1.data.getD []
    let s2 := { s1 with data := some [], message_length := 0 }
    if data.length < 5 then (s2, rs1, [SelEvent.logException])
    else
      let block_id := unpack_u16 (data.take 2)
      let compression := data.getD 4 0
      let payload0 := data.drop 10
      let payload := if compression = 1 then inflate payload0 else payload0
      (s2, rs1, [SelEvent.dispatched block_id payload])

/-- Lines 615-679: one iteration for one ready socket. -/
def selectIteration (inflate : List Nat → List Nat) (doRestart : Session → Session)
    (s : Session) (rs : RecvState) : Session × RecvState × List SelEvent :=
  match s.sock with
  | none => (s, rs, [])
  | some _ =>
    if s.message_length = 0 then
      match readMsgHeader s rs with
      | (Except.error _, s1, rs1) => (s1, rs1, [SelEvent.logException])
      | (Except.ok rt, s1, rs1) =>
        if rt = NO_DATA then
          if s1.sock ≠ none then
            (doRestart s1, rs1, [SelEvent.logSocketClosed, SelEvent.restarted])
          else (s1, rs1, [])
        else if rt = INCOMPLETE then (s1, rs1, [])
        else if rt ≠ (PUBLISH_MESSAGE : Int) then (s1, rs1, [SelEvent.logWarn rt])
        else selectBody inflate doRestart s1 rs1
    else selectBody inflate doRestart s rs

/-- Repeated reader iterations while input is pending (select only fires
when the socket has readable data, so the run stops on an empty stream). -/
def runReader (inflate : List Nat → List Nat) (doRestart : Session → Session) :
    Nat → Session → RecvState → Session × RecvState × List SelEvent
  | 0, s, rs => (s, rs, [])
  | Nat.succ n, s, rs =>
    if rs.stream = [] then (s, rs, [])
    else
      let r1 := selectIteration inflate doRestart s rs
      let r2 := runReader inflate doRestart n r1.1 r1.2.1
      (r2.1, r2.2.1, r1.2.2 ++ r2.2.2)

/-! ## Callback worker pool (`CallbackWorkerPool`, lines 334-396) -/

/-- `struct.pack('!HHH', PUBLISH_MESSAGE_RECEIVED, block_id, 200)`
(lines 353-355): the acknowledgement bytes enqueued on the writer
queue.  Note there is NO 4-byte length field. -/
def responseMessage (block_id : Nat) : List Nat :=
  pack_u16 PUBLISH_MESSAGE_RECEIVED ++ pack_u16 block_id ++ pack_u16 200

/-- Outcome of invoking the user callback: it returned a value of the
given truthiness, or it raised. -/
inductive CallbackResult where
  | ret (truthy : Bool)
  | raised
  deriving DecidableEq, Repr

/-- Observable actions of one `__consume_queue` loop turn. -/
inductive WorkerEvent where
  | callbackReturned (truthy : Bool)
  | callbackRaised
  | ackEnqueued (sock : Option Nat) (msg : List Nat)
  | exceptionLogged
  | taskDone
  deriving DecidableEq, Repr

/-- One turn of `__consume_queue` (lines 346-361) after dequeuing
`(session, block_id, data)`: invoke the callback; if it returns truthy
and a write queue exists, enqueue `(session.socket, responseMessage
block_id)`; a raised exception is logged; `task_done` always runs. -/
def consumeQueueStep (hasWriteQueue : Bool) (sock : Option Nat) (block_id : Nat)
    (res : CallbackResult) : List WorkerEvent :=
  match res with
  | CallbackResult.raised =>
    [WorkerEvent.callbackRaised, WorkerEvent.exceptionLogged, WorkerEvent.taskDone]
  | CallbackResult.ret b =>
    if b then
      if hasWriteQueue then
        [WorkerEvent.callbackReturned true,
         WorkerEvent.ackEnqueued sock (responseMessage block_id),
         WorkerEvent.taskDone]
      else [WorkerEvent.callbackReturned true, WorkerEvent.taskDone]
    else [WorkerEvent.callbackReturned false, WorkerEvent.taskDone]

/-- Python's `queue.Queue(maxsize)`: `maxsize = 0` means unbounded
(`Queue.put` blocks only while `0 < maxsize ≤ qsize()`). -/
structure PyQueue (α : Type) where
  maxsize : Nat
  items : List α
  deriving DecidableEq, Repr

/-- `Queue.put(x)` with default `block=True`: `none` means the caller
blocks (the queue is full); otherwise the item is appended. -/
def PyQueue.put {α : Type} (q : PyQueue α) (x : α) : Option (PyQueue α) :=
  if 0 < q.maxsize ∧ q.maxsize ≤ q.items.length then none
  else some { q with items := q.items ++ [x] }

/-- `Queue.get()`: `none` means the caller blocks (queue empty). -/
def PyQueue.get {α : Type} (q : PyQueue α) : Option (α × PyQueue α) :=
  match q.items with
  | [] => none
  | x :: xs => some (x, { q with items := xs })

/-- State of `CallbackWorkerPool.__init__` (lines 364-385):
`write_queue` records whether a writer queue was supplied and
`queue = Queue(size)` is the internal bounded callback queue. -/
structure CallbackWorkerPool where
  write_queue : Bool
  queue : PyQueue (Session × Nat × List Nat)
  size : Nat
  deriving DecidableEq, Repr

def CallbackWorkerPool.init (write_queue : Bool) (size : Nat) : CallbackWorkerPool :=
  { write_queue := write_queue, queue := { maxsize := size, items := [] }, size := size }

/-- The source's default worker count is `size=1`. -/
def CallbackWorkerPool.initDefault (write_queue : Bool) : CallbackWorkerPool :=
  CallbackWorkerPool.init write_queue 1

/-- `queue_callback` (lines 387-396): a blocking put on the bounded
queue; `none` models the reader blocking because the queue is full. -/
def queue_callback (pool : CallbackWorkerPool) (session : Session)
    (block_id : Nat) (data : List Nat) : Option CallbackWorkerPool :=
  match pool.queue.put (session, block_id, data) with
  | none => none
  | some q => some { pool with queue := q }

/-! ## Handshake (`PushSession.send_connection_request` / `start`,
lines 173-258)

The environment captures the server side: whether `connect` and `send`
succeed and what `recv(10)` returns (`none` = 60-second timeout).  The
result is the outcome, the session after the call, and the trace of
socket operations in program order.  `setblocking 0` and `settimeout 0`
both place the socket in non-blocking mode; `settimeout 60` is a
blocking mode with a 60-second timeout. -/

structure HsEnv where
  connect_ok : Bool
  send_ok : Bool
  response : Option (List Nat)
  deriving DecidableEq, Repr

inductive HsError where
  | alreadyStarted
  | transport
  | timeout
  | badLength (n : Nat)
  | badType (t : Nat)
  | badStatus (code : Nat)
  deriving DecidableEq, Repr

inductive SockOp where
  | connect
  | setblocking (flag : Nat)
  | settimeout (seconds : Nat)
  | send (data : List Nat)
  | recvCall (n : Nat)
  | close
  deriving DecidableEq, Repr

/-- The exact bytes of the ConnectionRequest frame built in lines
185-202: 6-byte header (type 0x01, body length) then version, username
length, username, password length, password, monitor id. -/
def connectionRequestBytes (username password : List Nat) (monitor_id : Nat) : List Nat :=
  let payload := pack_u16 1 ++ pack_u16 username.length ++ username
    ++ pack_u16 password.length ++ password ++ pack_u32 monitor_id
  pack_u16 CONNECTION_REQUEST ++ pack_u32 payload.length ++ payload

/-- `send_connection_request` (lines 173-237).  On any exception the
socket is closed and set to `None` and the error re-raised.  Note
`settimeout(0)` (line 215) runs right after `recv`, before the response
is validated. -/
def sendConnectionRequest (username password : List Nat) (monitor_id fd : Nat)
    (env : HsEnv) : Except HsError Unit × Option Nat × List SockOp :=
  let data := connectionRequestBytes username password monitor_id
  if env.send_ok = false then
    (Except.error HsError.transport, none, [SockOp.send data, SockOp.close])
  else
    match env.response with
    | none =>
      (Except.error HsError.timeout, none,
        [SockOp.send data, SockOp.settimeout 60, SockOp.recvCall 10, SockOp.close])
    | some resp =>
      let tr := [SockOp.send data, SockOp.settimeout 60, SockOp.recvCall 10,
                 SockOp.settimeout 0]
      if resp.length ≠ 10 then
        (Except.error (HsError.badLength resp.length), none, tr ++ [SockOp.close])
      else if unpack_u16 (resp.take 2) ≠ CONNECTION_RESPONSE then
        (Except.error (HsError.badType (unpack_u16 (resp.take 2))), none,
          tr ++ [SockOp.close])
      else if unpack_u16 ((resp.drop 6).take 2) ≠ STATUS_OK then
        -- the source reads the status from response[6:8]
        (Except.error (HsError.badStatus (unpack_u16 ((resp.drop 6).take 2))), none,
          tr ++ [SockOp.close])
      else (Except.ok (), some fd, tr)

/-- `PushSession.start` (lines 239-258): create the socket, connect,
`setblocking(0)`, then `send_connection_request()`. -/
def PushSession.start (username password : List Nat) (monitor_id fd : Nat)
    (env : HsEnv) (s : Session) : Except HsError Unit × Session × List SockOp :=
  if s.sock ≠ none then (Except.error HsError.alreadyStarted, s, [])
  else if env.connect_ok = false then
    (Except.error HsError.transport, { s with sock := none },
      [SockOp.connect, SockOp.close])
  else
    let r := sendConnectionRequest username password monitor_id fd env
    (r.1, { s with sock := r.2.1 },
      [SockOp.connect, SockOp.setblocking 0] ++ r.2.2)

/-- `PushSession.stop` (lines 260-268): if a socket exists, close it,
null the socket reference and set `data = None` (not `b''`);
`message_length` is untouched. -/
def PushSession.stop (s : Session) : Session :=
  if s.sock = none then s
  else { s with sock := none, data := none }

/-- `PushClient.__restart_session` (lines 560-574): when the session
still owns a socket, `stop()` then `start()` (the map manipulation is
keyed on the socket handle and not modelled here). -/
def restartSession (username password : List Nat) (monitor_id newFd : Nat)
    (env : HsEnv) (s : Session) : Session :=
  if s.sock = none then s
  else (PushSession.start username password monitor_id newFd env
    (PushSession.stop s)).2.1

/-! ## `PushClient.__clean_dead_sessions` (lines 592-601)

The source iterates over `self.sessions.keys()` (a live dict view in
Python 3) and deletes entries inside the loop.  CPython's dict iterator
raises `RuntimeError: dictionary changed size during iteration` on the
next `__next__` call after any size change, including the final call
that would otherwise raise `StopIteration`.  The Bool of the result
records whether that `RuntimeError` was raised; the list is the map at
that point. -/

def eraseKey (k : Nat) : List (Nat × Session) → List (Nat × Session)
  | [] => []
  | (k', v) :: rest => if k' = k then rest else (k', v) :: eraseKey k rest

def cleanDeadSessionsGo : List Nat → List (Nat × Session) → Nat →
    Bool × List (Nat × Session)
  | [], cur, dels => (decide (0 < dels), cur)
  | k :: ks, cur, dels =>
    if 0 < dels then (true, cur)
    else
      match cur.lookup k with
      | none => cleanDeadSessionsGo ks cur dels
      | some sess =>
        if sess.sock = none then cleanDeadSessionsGo ks (eraseKey k cur) (dels + 1)
        else cleanDeadSessionsGo ks cur dels

/-- `__clean_dead_sessions` on a socket→session map (associative list
with the dict's key order).  Returns (RuntimeError raised?, final map). -/
def cleanDeadSessions (m : List (Nat × Session)) : Bool × List (Nat × Session) :=
  cleanDeadSessionsGo (m.map Prod.fst) m 0

/-! ## Claims C1 and C3: acknowledgement behaviour of the worker pool -/

/-- Claim C1, counterexample: for block id 42 and a truthy callback the
enqueued acknowledgement is the 6-byte `struct.pack('!HHH', 4, 42, 200)`
message `00 04 00 2A 00 C8`, not the 10-byte framed message
`00 04 00 00 00 04 00 2A 00 C8` the claim states. -/
theorem c1_ack_counterexample :
    consumeQueueStep true (some 3) 42 (CallbackResult.ret true)
      = [WorkerEvent.callbackReturned true,
         WorkerEvent.ackEnqueued (some 3) [0x00, 0x04, 0x00, 0x2A, 0x00, 0xC8],
         WorkerEvent.taskDone]
    ∧ responseMessage 42 ≠ [0x00, 0x04, 0x00, 0x00, 0x00, 0x04, 0x00, 0x2A, 0x00, 0xC8]
    ∧ WorkerEvent.ackEnqueued (some 3)
          [0x00, 0x04, 0x00, 0x00, 0x00, 0x04, 0x00, 0x2A, 0x00, 0xC8]
        ∉ consumeQueueStep true (some 3) 42 (CallbackResult.ret true) := by
  decide

/-- Claim C1, amended: for every block id `B` whose callback returns a
truthy value, the bytes enqueued on the writer queue are the 6-byte
message u16 type 0x0004, u16 block id, u16 status 200 (no length
field), all big-endian. -/
theorem c1_ack_bytes_amended (sock : Option Nat) (B : Nat) (hB : B < 65536) :
    responseMessage B = [0, 4, B / 256, B % 256, 0, 200]
    ∧ (responseMessage B).length = 6
    ∧ WorkerEvent.ackEnqueued sock (responseMessage B)
        ∈ consumeQueueStep true sock B (CallbackResult.ret true) := by
  refine ⟨?_, by simp [responseMessage, pack_u16], by simp [consumeQueueStep]⟩
  simp [responseMessage, pack_u16, PUBLISH_MESSAGE_RECEIVED]
  omega

/-- Witness for `c1_ack_bytes_amended` at block id 42. -/
theorem c1_ack_bytes_witness :
    (42 : Nat) < 65536
    ∧ (responseMessage 42 = [0, 4, 42 / 256, 42 % 256, 0, 200]
      ∧ (responseMessage 42).length = 6
      ∧ WorkerEvent.ackEnqueued (some 3) (responseMessage 42)
          ∈ consumeQueueStep true (some 3) 42 (CallbackResult.ret true)) :=
  ⟨by decide, c1_ack_bytes_amended (some 3) 42 (by decide)⟩

/-- Claim C3: an acknowledgement is enqueued if and only if the callback
returned truthy, the enqueue strictly follows the callback return (it is
the next event after `callbackReturned true`), and a falsy return or a
raised exception produces no acknowledgement (the exception is logged
and the worker finishes the turn). -/
theorem c3_ack_follows_callback (sock : Option Nat) (B : Nat) (res : CallbackResult) :
    consumeQueueStep true sock B (CallbackResult.ret true)
      = [WorkerEvent.callbackReturned true,
         WorkerEvent.ackEnqueued sock (responseMessage B),
         WorkerEvent.taskDone]
    ∧ consumeQueueStep true sock B (CallbackResult.ret false)
      = [WorkerEvent.callbackReturned false, WorkerEvent.taskDone]
    ∧ consumeQueueStep true sock B CallbackResult.raised
      = [WorkerEvent.callbackRaised, WorkerEvent.exceptionLogged, WorkerEvent.taskDone]
    ∧ ((∃ msg, WorkerEvent.ackEnqueued sock msg ∈ consumeQueueStep true sock B res)
        ↔ res = CallbackResult.ret true) := by
  refine ⟨rfl, rfl, rfl, ?_⟩
  cases res with
  | raised => simp [consumeQueueStep]
  | ret b => cases b <;> simp [consumeQueueStep]

/-! ## Claim C2: non-PublishMessage frames -/

/-- Claim C2 (code bug): a frame of type 0x0002 with a 12-byte body is
received.  The reader warns that the type does not match PublishMessage,
but `message_length` is left at 12 (only `session.data` was cleared by
`_read_msg_header`), so the next iterations read the 12 body bytes as if
they were a PublishMessage body and dispatch block id 7 with payload
`AA BB` to the callback pool — the claim says no byte of that body may
reach the callback pool and that the receive state is reset. -/
theorem c2_nonpublish_body_dispatched :
    (runReader (fun l => l) (fun s => s) 3
        ⟨some 1, some [], 0⟩
        ⟨[0x00, 0x02, 0x00, 0x00, 0x00, 0x0C,
          0x00, 0x07, 0x00, 0x00, 0x09, 0x00, 0x00, 0x00, 0x00, 0x00, 0xAA, 0xBB],
         []⟩).2.2
      = [SelEvent.logWarn 2, SelEvent.dispatched 7 [0xAA, 0xBB]]
    ∧ (selectIteration (fun l => l) (fun s => s)
        ⟨some 1, some [], 0⟩
        ⟨[0x00, 0x02, 0x00, 0x00, 0x00, 0x0C,
          0x00, 0x07, 0x00, 0x00, 0x09, 0x00, 0x00, 0x00, 0x00, 0x00, 0xAA, 0xBB],
         []⟩).1.message_length = 12 := by
  decide

/-! ## Claim C8: `__clean_dead_sessions` -/

/-- Claim C8 (code bug): on a map holding a dead session (socket
`None`), `__clean_dead_sessions` deletes that entry and then the dict
iterator raises `RuntimeError: dictionary changed size during iteration`
(first component `true`); the claim says the call completes without
raising.  On a map with no dead session the loop completes and removes
nothing. -/
theorem c8_clean_dead_sessions_raises :
    cleanDeadSessions
        [(5, (⟨none, none, 0⟩ : Session)), (7, (⟨some 9, some [], 0⟩ : Session))]
      = (true, [(7, (⟨some 9, some [], 0⟩ : Session))])
    ∧ cleanDeadSessions [(7, (⟨some 9, some [], 0⟩ : Session))]
      = (false, [(7, (⟨some 9, some [], 0⟩ : Session))]) := by
  decide

/-! ## Claim C10: `stop()` and restart leave the buffer as `None` -/

/-- Claim C10: for a session owning a socket, `stop()` nulls the socket
and sets the accumulation buffer to `None` (not the empty byte string)
while leaving `message_length` unchanged, and a restarted session
(`stop()` then `start()`) still has buffer `None` when it re-enters the
reader loop, since `start()` never touches `data`. -/
theorem c10_stop_nulls_buffer (s : Session) (fd : Nat) (u p : List Nat)
    (m newFd : Nat) (env : HsEnv) (h : s.sock = some fd) :
    (PushSession.stop s).sock = none
    ∧ (PushSession.stop s).data = none
    ∧ (PushSession.stop s).data ≠ some []
    ∧ (PushSession.stop s).message_length = s.message_length
    ∧ (restartSession u p m newFd env s).data = none
    ∧ (restartSession u p m newFd env s).data ≠ some [] := by
  have hstop : PushSession.stop s = { s with sock := none, data := none } := by
    simp [PushSession.stop, h]
  have hres : (restartSession u p m newFd env s).data = none := by
    rw [restartSession, if_neg (by simp [h]), PushSession.start, hstop]
    by_cases hc : env.connect_ok = false <;> simp [hc]
  exact ⟨by simp [hstop], by simp [hstop], by simp [hstop], by simp [hstop],
    hres, by simp [hres]⟩

/-- Witness for `c10_stop_nulls_buffer` on a concrete active session. -/
theorem c10_stop_nulls_buffer_witness :
    ((⟨some 3, some [1, 2], 5⟩ : Session).sock = some 3)
    ∧ ((PushSession.stop ⟨some 3, some [1, 2], 5⟩).sock = none
      ∧ (PushSession.stop ⟨some 3, some [1, 2], 5⟩).data = none
      ∧ (PushSession.stop ⟨some 3, some [1, 2], 5⟩).data ≠ some []
      ∧ (PushSession.stop ⟨some 3, some [1, 2], 5⟩).message_length
          = (⟨some 3, some [1, 2], 5⟩ : Session).message_length
      ∧ (restartSession [117] [112] 9001 4 ⟨true, true, some [0, 2, 0, 0, 0, 4, 0, 200, 0, 0]⟩
          ⟨some 3, some [1, 2], 5⟩).data = none
      ∧ (restartSession [117] [112] 9001 4 ⟨true, true, some [0, 2, 0, 0, 0, 4, 0, 200, 0, 0]⟩
          ⟨some 3, some [1, 2], 5⟩).data ≠ some []) :=
  ⟨by decide,
    c10_stop_nulls_buffer ⟨some 3, some [1, 2], 5⟩ 3 [117] [112] 9001 4
      ⟨true, true, some [0, 2, 0, 0, 0, 4, 0, 200, 0, 0]⟩ (by decide)⟩

/-! ## Claim C5: failed handshakes close the socket -/

/-- Claim C5: whenever `start()` fails — connect failure, send failure,
receive timeout, response not 10 bytes, wrong response type, or status
not 200 — the socket is closed, the session's socket reference is
`None`, and the error propagates to the caller. -/
theorem c5_failed_handshake_closes_socket (u p : List Nat) (m fd : Nat)
    (env : HsEnv) (s : Session) (e : HsError)
    (hs : s.sock = none)
    (herr : (PushSession.start u p m fd env s).1 = Except.error e) :
    (PushSession.start u p m fd env s).2.1.sock = none
    ∧ SockOp.close ∈ (PushSession.start u p m fd env s).2.2 := by
  rcases env with ⟨c, sd, r⟩
  cases c with
  | false => simp [PushSession.start, hs]
  | true =>
    cases sd with
    | false => simp [PushSession.start, sendConnectionRequest, hs]
    | true =>
      cases r with
      | none => simp [PushSession.start, sendConnectionRequest, hs]
      | some resp =>
        simp only [PushSession.start, sendConnectionRequest, hs] at herr ⊢
        split_ifs at herr ⊢ <;> simp_all

/-- Witness for `c5_failed_handshake_closes_socket`: the server answers
the handshake with status 403 in the status position the source reads
(`response[6:8]`); `start()` raises, the socket is closed and nulled. -/
theorem c5_failed_handshake_witness :
    ((⟨none, some [], 0⟩ : Session).sock = none)
    ∧ (PushSession.start [117] [112] 9001 7
        ⟨true, true, some [0, 2, 0, 0, 0, 4, 1, 147, 0, 0]⟩
        ⟨none, some [], 0⟩).1 = Except.error (HsError.badStatus 403)
    ∧ ((PushSession.start [117] [112] 9001 7
          ⟨true, true, some [0, 2, 0, 0, 0, 4, 1, 147, 0, 0]⟩
          ⟨none, some [], 0⟩).2.1.sock = none
      ∧ SockOp.close ∈ (PushSession.start [117] [112] 9001 7
          ⟨true, true, some [0, 2, 0, 0, 0, 4, 1, 147, 0, 0]⟩
          ⟨none, some [], 0⟩).2.2) :=
  ⟨by decide, by decide,
    c5_failed_handshake_closes_socket [117] [112] 9001 7
      ⟨true, true, some [0, 2, 0, 0, 0, 4, 1, 147, 0, 0]⟩
      ⟨none, some [], 0⟩ (HsError.badStatus 403) (by decide) (by decide)⟩

/-! ## Claim C6: socket mode during the handshake -/

/-- Claim C6, counterexample: on a fully successful handshake the
operation trace is `connect, setblocking(0), send, settimeout(60),
recv(10), settimeout(0)` — the socket is placed in NON-blocking mode
(`setblocking(0)`, index 1) before the ConnectionRequest send (index 2)
and the handshake receive (index 4), refuting the claim that the socket
is never non-blocking before the handshake completes and that the send
is blocking. -/
theorem c6_blocking_counterexample :
    (PushSession.start [117] [112] 9001 5
        ⟨true, true, some [0, 2, 0, 0, 0, 4, 0, 200, 0, 0]⟩
        ⟨none, some [], 0⟩).2.2
      = [SockOp.connect, SockOp.setblocking 0,
         SockOp.send (connectionRequestBytes [117] [112] 9001),
         SockOp.settimeout 60, SockOp.recvCall 10, SockOp.settimeout 0]
    ∧ (PushSession.start [117] [112] 9001 5
        ⟨true, true, some [0, 2, 0, 0, 0, 4, 0, 200, 0, 0]⟩
        ⟨none, some [], 0⟩).2.2.get? 1 = some (SockOp.setblocking 0)
    ∧ (PushSession.start [117] [112] 9001 5
        ⟨true, true, some [0, 2, 0, 0, 0, 4, 0, 200, 0, 0]⟩
        ⟨none, some [], 0⟩).2.2.get? 4 = some (SockOp.recvCall 10)
    ∧ (PushSession.start [117] [112] 9001 5
        ⟨true, true, some [0, 2, 0, 0, 0, 4, 0, 200, 0, 0]⟩
        ⟨none, some [], 0⟩).1 = Except.ok () := by
  decide

/-- Claim C6, amended: `start()` sets the socket non-blocking
immediately after connect and before the handshake; the
ConnectionRequest is sent in that mode; the 10-byte receive runs under a
60-second timeout (`settimeout(60)`); after the response is received the
socket is put back into non-blocking mode via `settimeout(0)`. -/
theorem c6_mode_trace_amended (u p : List Nat) (m fd : Nat) (env : HsEnv)
    (resp : List Nat) (s : Session)
    (hs : s.sock = none) (hc : env.connect_ok = true) (hsend : env.send_ok = true)
    (hr : env.response = some resp) (hlen : resp.length = 10)
    (htype : unpack_u16 (resp.take 2) = CONNECTION_RESPONSE)
    (hstatus : unpack_u16 ((resp.drop 6).take 2) = STATUS_OK) :
    (PushSession.start u p m fd env s).2.2
      = [SockOp.connect, SockOp.setblocking 0,
         SockOp.send (connectionRequestBytes u p m),
         SockOp.settimeout 60, SockOp.recvCall 10, SockOp.settimeout 0]
    ∧ (PushSession.start u p m fd env s).1 = Except.ok ()
    ∧ (PushSession.start u p m fd env s).2.1.sock = some fd := by
  simp [PushSession.start, sendConnectionRequest, hs, hc, hsend, hr, hlen,
    htype, hstatus]

/-- Witness for `c6_mode_trace_amended` on a concrete successful
handshake environment. -/
theorem c6_mode_trace_witness :
    ((⟨none, some [], 0⟩ : Session).sock = none
      ∧ (⟨true, true, some [0, 2, 0, 0, 0, 4, 0, 200, 0, 0]⟩ : HsEnv).connect_ok = true
      ∧ (⟨true, true, some [0, 2, 0, 0, 0, 4, 0, 200, 0, 0]⟩ : HsEnv).send_ok = true
      ∧ (⟨true, true, some [0, 2, 0, 0, 0, 4, 0, 200, 0, 0]⟩ : HsEnv).response
          = some [0, 2, 0, 0, 0, 4, 0, 200, 0, 0]
      ∧ ([0, 2, 0, 0, 0, 4, 0, 200, 0, 0] : List Nat).length = 10
      ∧ unpack_u16 (([0, 2, 0, 0, 0, 4, 0, 200, 0, 0] : List Nat).take 2) = CONNECTION_RESPONSE
      ∧ unpack_u16 ((([0, 2, 0, 0, 0, 4, 0, 200, 0, 0] : List Nat).drop 6).take 2) = STATUS_OK)
    ∧ ((PushSession.start [117] [112] 9001 5
          ⟨true, true, some [0, 2, 0, 0, 0, 4, 0, 200, 0, 0]⟩
          ⟨none, some [], 0⟩).2.2
        = [SockOp.connect, SockOp.setblocking 0,
           SockOp.send (connectionRequestBytes [117] [112] 9001),
           SockOp.settimeout 60, SockOp.recvCall 10, SockOp.settimeout 0]
      ∧ (PushSession.start [117] [112] 9001 5
          ⟨true, true, some [0, 2, 0, 0, 0, 4, 0, 200, 0, 0]⟩
          ⟨none, some [], 0⟩).1 = Except.ok ()
      ∧ (PushSession.start [117] [112] 9001 5
          ⟨true, true, some [0, 2, 0, 0, 0, 4, 0, 200, 0, 0]⟩
          ⟨none, some [], 0⟩).2.1.sock = some 5) :=
  ⟨by decide,
    c6_mode_trace_amended [117] [112] 9001 5
      ⟨true, true, some [0, 2, 0, 0, 0, 4, 0, 200, 0, 0]⟩
      [0, 2, 0, 0, 0, 4, 0, 200, 0, 0] ⟨none, some [], 0⟩
      (by decide) (by decide) (by decide) (by decide) (by decide) (by decide)
      (by decide)⟩

/-! ## Claim C7: header decoding -/

/-- Claim C7, counterexample: for the header `00 03 80 00 00 00` (type
PublishMessage, length field `0x80000000`), `_read_msg_header` stores
`message_length = -2^31` — the source unpacks with the SIGNED format
`'!i'` — which is negative and differs from the unsigned value `2^31`
the claim requires. -/
theorem c7_signed_length_counterexample :
    (readMsgHeader ⟨some 1, some [], 0⟩ ⟨[0, 3, 128, 0, 0, 0], []⟩).2.1.message_length
      = -2147483648
    ∧ unpack_u32 [128, 0, 0, 0] = 2147483648
    ∧ (readMsgHeader ⟨some 1, some [], 0⟩ ⟨[0, 3, 128, 0, 0, 0], []⟩).2.1.message_length < 0
    ∧ (readMsgHeader ⟨some 1, some [], 0⟩ ⟨[0, 3, 128, 0, 0, 0], []⟩).2.1.message_length
        ≠ (2147483648 : Int)
    ∧ (readMsgHeader ⟨some 1, some [], 0⟩ ⟨[0, 3, 128, 0, 0, 0], []⟩).1
        = Except.ok 3 := by
  decide

/-- Bytes of a byte string are below 256, `getD` included. -/
theorem byteGetD_lt (l : List Nat) (i : Nat) (h : ∀ b ∈ l, b < 256) :
    l.getD i 0 < 256 := by
  rcases Nat.lt_or_ge i l.length with hi | hi
  · rw [List.getD_eq_getElem l 0 hi]
    exact h _ (List.getElem_mem hi)
  · rw [List.getD_eq_default l 0 hi]
    omega

/-- Claim C7, amended: for every 6-byte header, the decoded frame type is
the big-endian unsigned 16-bit value of bytes 0–2, and the stored body
length is the big-endian SIGNED 32-bit value of bytes 2–6: it equals the
unsigned value when that value is below `2^31`, and is the negative
two's-complement value (unsigned − `2^32`) when the high bit is set. -/
theorem c7_header_decode_amended (h6 : List Nat) (fd : Nat)
    (hlen : h6.length = 6) (hbytes : ∀ b ∈ h6, b < 256) :
    (readMsgHeader ⟨some fd, some [], 0⟩ ⟨h6, []⟩).1
        = Except.ok ((unpack_u16 (h6.take 2) : Nat) : Int)
    ∧ (readMsgHeader ⟨some fd, some [], 0⟩ ⟨h6, []⟩).2.1.message_length
        = unpack_i32 (h6.drop 2)
    ∧ unpack_i32 (h6.drop 2)
        = (if unpack_u32 (h6.drop 2) < 2147483648 then ((unpack_u32 (h6.drop 2) : Nat) : Int)
           else ((unpack_u32 (h6.drop 2) : Nat) : Int) - 4294967296)
    ∧ (2147483648 ≤ unpack_u32 (h6.drop 2) →
        (readMsgHeader ⟨some fd, some [], 0⟩ ⟨h6, []⟩).2.1.message_length < 0) := by
  have htake : h6.take 6 = h6 := List.take_of_length_le (by omega)
  have hne : h6.length ≠ 0 := by omega
  have hu32 : unpack_u32 (h6.drop 2) < 4294967296 := by
    have h0 := byteGetD_lt (h6.drop 2) 0 (fun b hb => hbytes b (List.mem_of_mem_drop hb))
    have h1 := byteGetD_lt (h6.drop 2) 1 (fun b hb => hbytes b (List.mem_of_mem_drop hb))
    have h2 := byteGetD_lt (h6.drop 2) 2 (fun b hb => hbytes b (List.mem_of_mem_drop hb))
    have h3 := byteGetD_lt (h6.drop 2) 3 (fun b hb => hbytes b (List.mem_of_mem_drop hb))
    unfold unpack_u32
    omega
  refine ⟨?_, ?_, by simp [unpack_i32], ?_⟩
  · simp [readMsgHeader, recv, htake, hlen, hne]
  · simp [readMsgHeader, recv, htake, hlen, hne]
  · intro hge
    simp [readMsgHeader, recv, htake, hlen, hne, unpack_i32, Nat.not_lt.mpr hge]
    omega

/-- Witness for `c7_header_decode_amended` at the header
`00 03 80 00 00 00`. -/
theorem c7_header_decode_witness :
    (([0, 3, 128, 0, 0, 0] : List Nat).length = 6
      ∧ (∀ b ∈ ([0, 3, 128, 0, 0, 0] : List Nat), b < 256))
    ∧ ((readMsgHeader ⟨some 1, some [], 0⟩ ⟨[0, 3, 128, 0, 0, 0], []⟩).1
        = Except.ok ((unpack_u16 (([0, 3, 128, 0, 0, 0] : List Nat).take 2) : Nat) : Int)
      ∧ (readMsgHeader ⟨some 1, some [], 0⟩ ⟨[0, 3, 128, 0, 0, 0], []⟩).2.1.message_length
          = unpack_i32 (([0, 3, 128, 0, 0, 0] : List Nat).drop 2)
      ∧ unpack_i32 (([0, 3, 128, 0, 0, 0] : List Nat).drop 2)
          = (if unpack_u32 (([0, 3, 128, 0, 0, 0] : List Nat).drop 2) < 2147483648 then
               ((unpack_u32 (([0, 3, 128, 0, 0, 0] : List Nat).drop 2) : Nat) : Int)
             else ((unpack_u32 (([0, 3, 128, 0, 0, 0] : List Nat).drop 2) : Nat) : Int) - 4294967296)
      ∧ (2147483648 ≤ unpack_u32 (([0, 3, 128, 0, 0, 0] : List Nat).drop 2) →
          (readMsgHeader ⟨some 1, some [], 0⟩ ⟨[0, 3, 128, 0, 0, 0], []⟩).2.1.message_length < 0)) :=
  ⟨⟨by decide, by decide⟩,
    c7_header_decode_amended [0, 3, 128, 0, 0, 0] 1 (by decide) (by decide)⟩

/-! ## Claim C9: bounded callback queue -/

/-- Claim C9: the callback pool's internal queue is created with
capacity exactly the worker count `W` (default 1), `queue_callback`
blocks exactly when the queue already holds `W` items, and once a worker
dequeues one item the blocked put can proceed. -/
theorem c9_bounded_callback_queue (W : Nat) (hW : 0 < W)
    (pool : CallbackWorkerPool) (hpool : pool.queue.maxsize = W)
    (session : Session) (block_id : Nat) (data : List Nat) :
    (CallbackWorkerPool.init true W).queue.maxsize = W
    ∧ (CallbackWorkerPool.initDefault true).queue.maxsize = 1
    ∧ (queue_callback pool session block_id data = none
        ↔ W ≤ pool.queue.items.length)
    ∧ (pool.queue.items.length = W →
        (PyQueue.put ⟨W, pool.queue.items.tail⟩ (session, block_id, data)).isSome
          = true) := by
  refine ⟨rfl, rfl, ?_, ?_⟩
  · by_cases hfull : W ≤ pool.queue.items.length <;>
      simp [queue_callback, PyQueue.put, hpool, hW, hfull]
  · intro hlen
    have htail : pool.queue.items.tail.length = W - 1 := by
      simp [hlen]
    rw [PyQueue.put, if_neg (by simp [htail])]
    simp

/-- Witness for `c9_bounded_callback_queue` at the default worker count
`W = 1` with a full (one-element) queue. -/
theorem c9_bounded_callback_queue_witness :
    ((0 : Nat) < 1
      ∧ (⟨true, ⟨1, [(⟨some 2, some [], 0⟩, 5, [104, 105])]⟩, 1⟩
          : CallbackWorkerPool).queue.maxsize = 1)
    ∧ ((CallbackWorkerPool.init true 1).queue.maxsize = 1
      ∧ (CallbackWorkerPool.initDefault true).queue.maxsize = 1
      ∧ (queue_callback ⟨true, ⟨1, [(⟨some 2, some [], 0⟩, 5, [104, 105])]⟩, 1⟩
            ⟨some 3, some [], 0⟩ 6 [106] = none
          ↔ 1 ≤ (⟨true, ⟨1, [(⟨some 2, some [], 0⟩, 5, [104, 105])]⟩, 1⟩
              : CallbackWorkerPool).queue.items.length)
      ∧ ((⟨true, ⟨1, [(⟨some 2, some [], 0⟩, 5, [104, 105])]⟩, 1⟩
            : CallbackWorkerPool).queue.items.length = 1 →
          (PyQueue.put ⟨1, (⟨true, ⟨1, [(⟨some 2, some [], 0⟩, 5, [104, 105])]⟩, 1⟩
              : CallbackWorkerPool).queue.items.tail⟩
            (⟨some 3, some [], 0⟩, 6, [106])).isSome = true)) :=
  ⟨⟨by decide, by decide⟩,
    c9_bounded_callback_queue 1 (by decide)
      ⟨true, ⟨1, [(⟨some 2, some [], 0⟩, 5, [104, 105])]⟩, 1⟩ (by decide)
      ⟨some 3, some [], 0⟩ 6 [106]⟩

/-! ## Claim C4: reassembly across partial reads -/

/-- A positive-entry schedule has a positive head (or the positive
default when exhausted). -/
theorem sched_headD_pos (sched : List Nat) (d : Nat) (hd : 0 < d)
    (hpos : ∀ x ∈ sched, 0 < x) : 0 < sched.headD d := by
  cases sched with
  | nil => exact hd
  | cons a t => exact hpos a (List.mem_cons_self a t)

/-- Entries of a schedule's tail are entries of the schedule. -/
theorem sched_tail_pos (sched : List Nat) (hpos : ∀ x ∈ sched, 0 < x) :
    ∀ x ∈ sched.tail, 0 < x :=
  fun x hx => hpos x (List.mem_of_mem_tail hx)

/-- A drained stream produces no further events. -/
theorem runReader_nil (inflate : List Nat → List Nat) (doRestart : Session → Session)
    (fuel : Nat) (s : Session) (sched : List Nat) :
    runReader inflate doRestart fuel s ⟨[], sched⟩ = (s, ⟨[], sched⟩, []) := by
  cases fuel <;> simp [runReader]

/-- One `_read_msg` call from a partially read body `B.take j`
(`j < |B|`): the next chunk of the stream is appended and the call
reports whether the body is now complete. -/
theorem readMsg_step (B sched : List Nat) (fd j k : Nat)
    (hj : j < B.length)
    (hk : k = min (B.length - j) (sched.headD (B.length - j)))
    (hpos : ∀ x ∈ sched, 0 < x) :
    readMsg ⟨some fd, some (B.take j), (B.length : Int)⟩ ⟨B.drop j, sched⟩
      = (Except.ok ((((j + k : Nat) : Int)) == ((B.length : Nat) : Int)),
         ⟨some fd, some (B.take (j + k)), (B.length : Int)⟩,
         ⟨B.drop (j + k), sched.tail⟩) := by
  have hkle : k ≤ B.length - j := hk ▸ Nat.min_le_left _ _
  have hk1 : 1 ≤ k := by
    have h1 : 0 < B.length - j := by omega
    have h2 : 0 < sched.headD (B.length - j) := sched_headD_pos _ _ h1 hpos
    omega
  have hjk : j + k ≤ B.length := by omega
  have hlen_take : (B.take j).length = j := by
    simp [List.length_take]; omega
  have hc1 : ¬ (((B.take j).length : Int) = ((B.length : Nat) : Int)) := by
    rw [hlen_take]; simp [Nat.cast_inj]; omega
  have hc2 : ¬ (((B.length : Nat) : Int) - ((B.take j).length : Int) < 0) := by
    rw [hlen_take]; omega
  have hc3 : (((B.length : Nat) : Int) - ((B.take j).length : Int)).toNat
      = B.length - j := by
    rw [hlen_take]; exact Int.toNat_sub _ _
  have hchunklen : ((B.drop j).take k).length = k := by
    simp [List.length_take, List.length_drop]; omega
  have hbuf : B.take j ++ (B.drop j).take k = B.take (j + k) :=
    (List.take_add B j k).symm
  have hdrop : (B.drop j).drop k = B.drop (j + k) := List.drop_drop k j B
  simp only [readMsg, recv, hc1, hc2, hc3, if_false, if_neg hc1, if_neg hc2]
  rw [← hk] at *
  simp only [hchunklen, hbuf, hdrop]
  have hne : ¬ (k = 0) := by omega
  simp [hne, hlen_take, List.length_take, Nat.min_eq_left hjk]

/-- One `__select` body phase from a partially read body `B.take j`: if
the incoming chunk completes the body, the frame is dispatched and the
receive state cleared; otherwise the partial body grows and no event is
emitted. -/
theorem selectBody_step (inflate : List Nat → List Nat) (doRestart : Session → Session)
    (B sched : List Nat) (fd j k : Nat)
    (h10 : 10 ≤ B.length) (hj : j < B.length)
    (hk : k = min (B.length - j) (sched.headD (B.length - j)))
    (hpos : ∀ x ∈ sched, 0 < x) :
    selectBody inflate doRestart
        ⟨some fd, some (B.take j), (B.length : Int)⟩ ⟨B.drop j, sched⟩
      = if j + k = B.length then
          (⟨some fd, some [], 0⟩, ⟨B.drop (j + k), sched.tail⟩,
            [SelEvent.dispatched (unpack_u16 (B.take 2))
              (if B.getD 4 0 = 1 then inflate (B.drop 10) else B.drop 10)])
        else
          (⟨some fd, some (B.take (j + k)), (B.length : Int)⟩,
            ⟨B.drop (j + k), sched.tail⟩, []) := by
  rw [selectBody, readMsg_step B sched fd j k hj hk hpos]
  by_cases hcase : j + k = B.length
  · have hb : ((((j + k : Nat)) : Int) == ((B.length : Nat) : Int)) = true := by
      simp [hcase]
    rw [hb, if_pos hcase]
    have hdata : B.take (j + k) = B := by
      rw [hcase]; exact List.take_length B
    simp only [hdata]
    have hlt : ¬ (B.length < 5) := by omega
    simp [hlt]
  · have hb : ((((j + k : Nat)) : Int) == ((B.length : Nat) : Int)) = false := by
      simp [Nat.cast_inj]; omega
    rw [hb, if_neg hcase]

/-- One `_read_msg_header` call from a partially read header `H.take j`
with the body `B` queued behind the header: either the header is still
incomplete, or it completes, storing the decoded type and length. -/
theorem readMsgHeader_step (H B sched : List Nat) (fd j k : Nat)
    (hH6 : H.length = 6) (hj : j < 6)
    (hk : k = min (6 - j) (sched.headD (6 - j)))
    (hpos : ∀ x ∈ sched, 0 < x) :
    readMsgHeader ⟨some fd, some (H.take j), 0⟩ ⟨H.drop j ++ B, sched⟩
      = if j + k < 6 then
          (Except.ok INCOMPLETE, ⟨some fd, some (H.take (j + k)), 0⟩,
            ⟨H.drop (j + k) ++ B, sched.tail⟩)
        else
          (Except.ok ((unpack_u16 (H.take 2) : Nat) : Int),
            ⟨some fd, some [], unpack_i32 (H.drop 2)⟩,
            ⟨B, sched.tail⟩) := by
  have hkle : k ≤ 6 - j := hk ▸ Nat.min_le_left _ _
  have hk1 : 1 ≤ k := by
    have h1 : 0 < 6 - j := by omega
    have h2 : 0 < sched.headD (6 - j) := sched_headD_pos _ _ h1 hpos
    omega
  have hjk : j + k ≤ 6 := by omega
  have hdropjlen : (H.drop j).length = 6 - j := by
    simp [List.length_drop, hH6]
  have htakelen : (H.take j).length = j := by
    simp [List.length_take]; omega
  have hchunk : (H.drop j ++ B).take k = (H.drop j).take k :=
    List.take_append_of_le_length (by omega)
  have hstream : (H.drop j ++ B).drop k = H.drop (j + k) ++ B := by
    rw [List.drop_append_of_le_length (by omega), List.drop_drop k j H]
  have hchunklen : ((H.drop j).take k).length = k := by
    simp [List.length_take, hdropjlen]; omega
  have hbuf : H.take j ++ (H.drop j).take k = H.take (j + k) :=
    (List.take_add H j k).symm
  have hbuflen : (H.take (j + k)).length = j + k := by
    simp [List.length_take]; omega
  simp only [readMsgHeader, recv, htakelen]
  rw [← hk]
  simp only [hchunk, hstream, hchunklen, hbuf, hbuflen]
  have hne0 : ¬ (k = 0) := by omega
  rw [if_neg hne0]
  by_cases hcase : j + k < 6
  · rw [if_pos hcase, if_pos hcase]
  · rw [if_neg hcase, if_neg hcase]
    have h6 : j + k = 6 := by omega
    have hfull : H.take (j + k) = H := by
      rw [h6, ← hH6]; exact List.take_length H
    have hgone : H.drop (j + k) = [] := by
      rw [h6, ← hH6]; exact List.drop_length H
    rw [hfull, hgone]
    simp

/-- Running the reader from any partially read publish body `B.take j`
with the rest of the body pending dispatches exactly one callback event:
block id from body bytes 0–2, payload = body bytes 10.., inflated iff
the compression byte (body byte 4) is `0x01`. -/
theorem runReader_body (inflate : List Nat → List Nat) (doRestart : Session → Session)
    (B : List Nat) (fd : Nat) (h10 : 10 ≤ B.length) :
    ∀ (fuel j : Nat) (sched : List Nat), j < B.length → B.length - j ≤ fuel →
      (∀ x ∈ sched, 0 < x) →
      (runReader inflate doRestart fuel
          ⟨some fd, some (B.take j), (B.length : Int)⟩ ⟨B.drop j, sched⟩).2.2
        = [SelEvent.dispatched (unpack_u16 (B.take 2))
            (if B.getD 4 0 = 1 then inflate (B.drop 10) else B.drop 10)] := by
  intro fuel
  induction fuel with
  | zero => intro j sched hj hfuel hpos; omega
  | succ n ih =>
    intro j sched hj hfuel hpos
    have hstream : ¬ (B.drop j = []) := by
      rw [List.drop_eq_nil_iff]; omega
    have hmlen : ¬ (((B.length : Nat) : Int) = 0) := by
      omega
    have hsel : selectIteration inflate doRestart
        ⟨some fd, some (B.take j), (B.length : Int)⟩ ⟨B.drop j, sched⟩
        = selectBody inflate doRestart
            ⟨some fd, some (B.take j), (B.length : Int)⟩ ⟨B.drop j, sched⟩ := by
      simp [selectIteration, hmlen]
    have hmin1 : 1 ≤ min (B.length - j) (sched.headD (B.length - j)) := by
      have h2 : 0 < sched.headD (B.length - j) :=
        sched_headD_pos _ _ (by omega) hpos
      omega
    have hminle : min (B.length - j) (sched.headD (B.length - j)) ≤ B.length - j :=
      Nat.min_le_left _ _
    simp only [runReader, hstream, if_neg, ite_false]
    rw [hsel, selectBody_step inflate doRestart B sched fd j
      (min (B.length - j) (sched.headD (B.length - j))) h10 hj rfl hpos]
    by_cases hcase : j + min (B.length - j) (sched.headD (B.length - j)) = B.length
    · rw [if_pos hcase]
      have hnil : B.drop (j + min (B.length - j) (sched.headD (B.length - j))) = [] := by
        rw [hcase]; exact List.drop_length B
      rw [hnil]
      simp [runReader_nil]
    · rw [if_neg hcase]
      have hlt : j + min (B.length - j) (sched.headD (B.length - j)) < B.length := by
        omega
      have hrec := ih (j + min (B.length - j) (sched.headD (B.length - j)))
        sched.tail hlt (by omega) (sched_tail_pos sched hpos)
      simpa using hrec

/-- Running the reader from any partially read publish header `H.take j`
(`H` a 6-byte header of type PublishMessage whose decoded length is the
body length) with body `B` queued behind it dispatches exactly one
callback event, for every schedule of positive chunk sizes. -/
theorem runReader_header (inflate : List Nat → List Nat) (doRestart : Session → Session)
    (H B : List Nat) (fd : Nat)
    (hH6 : H.length = 6) (hHt : unpack_u16 (H.take 2) = PUBLISH_MESSAGE)
    (hHl : unpack_i32 (H.drop 2) = (B.length : Int)) (h10 : 10 ≤ B.length) :
    ∀ (fuel j : Nat) (sched : List Nat), j < 6 → 6 - j + B.length ≤ fuel →
      (∀ x ∈ sched, 0 < x) →
      (runReader inflate doRestart fuel
          ⟨some fd, some (H.take j), 0⟩ ⟨H.drop j ++ B, sched⟩).2.2
        = [SelEvent.dispatched (unpack_u16 (B.take 2))
            (if B.getD 4 0 = 1 then inflate (B.drop 10) else B.drop 10)] := by
  intro fuel
  induction fuel with
  | zero => intro j sched hj hfuel hpos; omega
  | succ n ih =>
    intro j sched hj hfuel hpos
    have hstream : ¬ (H.drop j ++ B = []) := by
      have hlen : (H.drop j ++ B).length = 6 - j + B.length := by
        simp [hH6]
      intro hcon
      rw [hcon] at hlen
      simp at hlen
      omega
    have hmin1 : 1 ≤ min (6 - j) (sched.headD (6 - j)) := by
      have h2 : 0 < sched.headD (6 - j) := sched_headD_pos _ _ (by omega) hpos
      omega
    have hminle : min (6 - j) (sched.headD (6 - j)) ≤ 6 - j := Nat.min_le_left _ _
    have hstep := readMsgHeader_step H B sched fd j
      (min (6 - j) (sched.headD (6 - j))) hH6 hj rfl hpos
    simp only [runReader, hstream, if_neg, ite_false]
    by_cases hcase : j + min (6 - j) (sched.headD (6 - j)) < 6
    · -- header still incomplete: no event, recurse.
      rw [if_pos hcase] at hstep
      have hsel : selectIteration inflate doRestart
          ⟨some fd, some (H.take j), 0⟩ ⟨H.drop j ++ B, sched⟩
          = (⟨some fd, some (H.take (j + min (6 - j) (sched.headD (6 - j)))), 0⟩,
             ⟨H.drop (j + min (6 - j) (sched.headD (6 - j))) ++ B, sched.tail⟩, []) := by
        simp [selectIteration, hstep, INCOMPLETE, NO_DATA]
      rw [hsel]
      have hrec := ih (j + min (6 - j) (sched.headD (6 - j))) sched.tail
        hcase (by omega) (sched_tail_pos sched hpos)
      simpa using hrec
    · -- header completes in this iteration; the body phase starts at once.
      rw [if_neg hcase] at hstep
      rw [hHl] at hstep
      have hsel : selectIteration inflate doRestart
          ⟨some fd, some (H.take j), 0⟩ ⟨H.drop j ++ B, sched⟩
          = selectBody inflate doRestart
              ⟨some fd, some [], (B.length : Int)⟩ ⟨B, sched.tail⟩ := by
        simp [selectIteration, hstep, hHt, PUBLISH_MESSAGE, INCOMPLETE, NO_DATA]
      have hbody := selectBody_step inflate doRestart B sched.tail fd 0
        (min (B.length - 0) (sched.tail.headD (B.length - 0))) h10 (by omega) rfl
        (sched_tail_pos sched hpos)
      simp only [List.take_zero, List.drop_zero] at hbody
      rw [hsel, hbody]
      have hmin1b : 1 ≤ min (B.length - 0) (sched.tail.headD (B.length - 0)) := by
        have h2 : 0 < sched.tail.headD (B.length - 0) :=
          sched_headD_pos _ _ (by omega) (sched_tail_pos sched hpos)
        omega
      have hminleb : min (B.length - 0) (sched.tail.headD (B.length - 0)) ≤ B.length - 0 :=
        Nat.min_le_left _ _
      by_cases hcase2 : 0 + min (B.length - 0) (sched.tail.headD (B.length - 0)) = B.length
      · rw [if_pos hcase2]
        have hnil : B.drop (0 + min (B.length - 0) (sched.tail.headD (B.length - 0))) = [] := by
          rw [hcase2]; exact List.drop_length B
        rw [hnil]
        simp [runReader_nil]
      · rw [if_neg hcase2]
        have hlt : 0 + min (B.length - 0) (sched.tail.headD (B.length - 0)) < B.length := by
          omega
        have hrec := runReader_body inflate doRestart B fd h10 n
          (0 + min (B.length - 0) (sched.tail.headD (B.length - 0)))
          sched.tail.tail hlt (by omega)
          (sched_tail_pos sched.tail (sched_tail_pos sched hpos))
        simpa using hrec

/-- Claim C4: for every well-formed PublishMessage body `B` (at least 10
bytes, length below `2^31`) delivered as one frame and reassembled from
ANY sequence of positive-size partial reads, the reader hands the
callback pool exactly one event: block id = big-endian u16 of body bytes
0–2, payload = body bytes 10..end, zlib-inflated first exactly when the
compression code (body byte 4) equals `0x01`. -/
theorem c4_reassembled_payload (inflate : List Nat → List Nat)
    (doRestart : Session → Session) (B sched : List Nat) (fd : Nat)
    (h10 : 10 ≤ B.length) (hsize : B.length < 2147483648)
    (hpos : ∀ x ∈ sched, 0 < x) :
    (runReader inflate doRestart (6 + B.length)
        ⟨some fd, some [], 0⟩
        ⟨(pack_u16 PUBLISH_MESSAGE ++ pack_u32 B.length) ++ B, sched⟩).2.2
      = [SelEvent.dispatched (unpack_u16 (B.take 2))
          (if B.getD 4 0 = 1 then inflate (B.drop 10) else B.drop 10)] := by
  have hH6 : (pack_u16 PUBLISH_MESSAGE ++ pack_u32 B.length).length = 6 := by
    simp [pack_u16, pack_u32]
  have hHt : unpack_u16 ((pack_u16 PUBLISH_MESSAGE ++ pack_u32 B.length).take 2)
      = PUBLISH_MESSAGE := by
    simp [pack_u16, pack_u32, unpack_u16, PUBLISH_MESSAGE]
  have hHl : unpack_i32 ((pack_u16 PUBLISH_MESSAGE ++ pack_u32 B.length).drop 2)
      = (B.length : Int) := by
    have hval : 16777216 * (B.length / 16777216 % 256) + 65536 * (B.length / 65536 % 256)
        + 256 * (B.length / 256 % 256) + B.length % 256 = B.length := by
      omega
    simp [pack_u16, pack_u32, unpack_i32, unpack_u32, PUBLISH_MESSAGE, hval]
    omega
  have hrun := runReader_header inflate doRestart
    (pack_u16 PUBLISH_MESSAGE ++ pack_u32 B.length) B fd hH6 hHt hHl h10
    (6 + B.length) 0 sched (by omega) (by omega) hpos
  simpa using hrun

/-- Witness for `c4_reassembled_payload`: the 12-byte body of the spec's
scenario 3 (block id 42, compression 0, payload "hi") delivered in
chunks of 4, 7 and 12 bytes. -/
theorem c4_reassembled_payload_witness :
    (10 ≤ ([0, 42, 0, 0, 0, 0, 0, 0, 0, 0, 104, 105] : List Nat).length
      ∧ ([0, 42, 0, 0, 0, 0, 0, 0, 0, 0, 104, 105] : List Nat).length < 2147483648
      ∧ (∀ x ∈ ([4, 7, 12] : List Nat), 0 < x))
    ∧ (runReader (fun l => l) (fun s => s)
        (6 + ([0, 42, 0, 0, 0, 0, 0, 0, 0, 0, 104, 105] : List Nat).length)
        ⟨some 1, some [], 0⟩
        ⟨(pack_u16 PUBLISH_MESSAGE
            ++ pack_u32 ([0, 42, 0, 0, 0, 0, 0, 0, 0, 0, 104, 105] : List Nat).length)
            ++ [0, 42, 0, 0, 0, 0, 0, 0, 0, 0, 104, 105], [4, 7, 12]⟩).2.2
      = [SelEvent.dispatched
          (unpack_u16 (([0, 42, 0, 0, 0, 0, 0, 0, 0, 0, 104, 105] : List Nat).take 2))
          (if ([0, 42, 0, 0, 0, 0, 0, 0, 0, 0, 104, 105] : List Nat).getD 4 0 = 1
           then (fun l => l) (([0, 42, 0, 0, 0, 0, 0, 0, 0, 0, 104, 105] : List Nat).drop 10)
           else ([0, 42, 0, 0, 0, 0, 0, 0, 0, 0, 104, 105] : List Nat).drop 10)] :=
  ⟨⟨by decide, by decide, by decide⟩,
    c4_reassembled_payload (fun l => l) (fun s => s)
      [0, 42, 0, 0, 0, 0, 0, 0, 0, 0, 104, 105] [4, 7, 12] 1
      (by decide) (by decide) (by decide)⟩
